import Mathlib

/-!
Shallow embedding of the `gomote create` command (cmd/gomote, golang.org/x/build):
the builder-catalog fetch (`builders`) and the concurrent multi-instance
orchestrator (`create`). External collaborators (the provisioning RPC stream,
`getGOROOT`, `doPush`, `doRun`, `storeGroup`, `statusFromError`) are modelled as
parameters of the embedding; the control flow, error-message construction and
shared-group mutation are translated from the source.
-/

/-- Mirrors Go `type builderType struct { Name string; IsReverse bool; ExpectNum int }`. -/
structure builderType where
  Name : String
  IsReverse : Bool
  ExpectNum : Int
deriving DecidableEq, Repr

/-- Mirrors the local `type builderInfo struct { HostType string }` inside `builders`. -/
structure builderInfo where
  HostType : String
deriving DecidableEq, Repr

/-- Mirrors the local `type hostInfo struct` inside `builders`. -/
structure hostInfo where
  IsReverse : Bool
  ExpectNum : Int
  ContainerImage : String
  VMImage : String
deriving DecidableEq, Repr

/-- The decoded response JSON `resj` of `builders`. Go maps are modelled as
association lists; a Go map has no duplicate keys, which theorems state as a
`Nodup` hypothesis where they need it. -/
structure BuildersResponse where
  Builders : List (String × builderInfo)
  Hosts : List (String × hostInfo)
deriving DecidableEq, Repr

/-- Go map lookup `hi, ok := resj.Hosts[bi.HostType]`. -/
def lookupHost (hosts : List (String × hostInfo)) (k : String) : Option hostInfo :=
  (hosts.find? (fun p => p.1 == k)).map (fun p => p.2)

/-- Go `strings.HasPrefix(s, pre)`, modelled on the character lists of the two
strings (Go compares byte-wise; these names are ASCII). -/
def goHasPrefix (s pre : String) : Bool := pre.toList.isPrefixOf s.toList

/-- Lexicographic byte-order comparison underlying Go's `<` on strings
(`a ≤ b`), on character lists. -/
def lexLe : List Char → List Char → Bool
  | [], _ => true
  | _ :: _, [] => false
  | a :: as, b :: bs =>
    if a.toNat < b.toNat then true
    else if b.toNat < a.toNat then false
    else lexLe as bs

theorem lexLe_total : ∀ a b : List Char, lexLe a b = true ∨ lexLe b a = true
  | [], _ => Or.inl rfl
  | _ :: _, [] => Or.inr rfl
  | a :: as, b :: bs => by
    by_cases h1 : a.toNat < b.toNat
    · exact Or.inl (by simp [lexLe, h1])
    · by_cases h2 : b.toNat < a.toNat
      · exact Or.inr (by simp [lexLe, h2])
      · rcases lexLe_total as bs with h | h
        · exact Or.inl (by simp [lexLe, h1, h2, h])
        · exact Or.inr (by simp [lexLe, h1, h2, h])

theorem lexLe_trans : ∀ a b c : List Char,
    lexLe a b = true → lexLe b c = true → lexLe a c = true
  | [], _, _, _, _ => rfl
  | _ :: _, [], _, h1, _ => by simp [lexLe] at h1
  | _ :: _, _ :: _, [], _, h2 => by simp [lexLe] at h2
  | a :: as, b :: bs, c :: cs, h1, h2 => by
    simp only [lexLe] at h1 h2 ⊢
    split_ifs at h1 h2 ⊢ <;>
      first
        | rfl
        | omega
        | exact lexLe_trans as bs cs h1 h2

/-- The filtering loop of `builders` (lines 59-75): skip names with the
"misc-compile" prefix, skip host types absent from the Hosts map, skip hosts
that are not reverse and have neither a container image nor a VM image. -/
def buildersFiltered (resj : BuildersResponse) : List builderType :=
  resj.Builders.filterMap (fun p =>
    if goHasPrefix p.1 "misc-compile" then none
    else
      match lookupHost resj.Hosts p.2.HostType with
      | none => none
      | some hi =>
        if !hi.IsReverse && hi.ContainerImage == "" && hi.VMImage == "" then none
        else some { Name := p.1, IsReverse := hi.IsReverse, ExpectNum := hi.ExpectNum })

/-- The comparator of the `sort.Slice` call in `builders`, as a relation on
results: ordered by `Name` (lexicographic byte order, Go's string `<`/`≤`). -/
def byName (a b : builderType) : Prop := lexLe a.Name.toList b.Name.toList = true

instance : DecidableRel byName := fun a b =>
  inferInstanceAs (Decidable (lexLe a.Name.toList b.Name.toList = true))

instance : IsTotal builderType byName := ⟨fun a b => lexLe_total a.Name.toList b.Name.toList⟩

instance : IsTrans builderType byName :=
  ⟨fun a b c h h2 => lexLe_trans a.Name.toList b.Name.toList c.Name.toList h h2⟩

/-- The pure core of `builders` (lines 59-79), applied to the decoded response:
filter, then sort by name. `sort.Slice` with comparator `bt[i].Name < bt[j].Name`
is modelled as a sort producing a permutation ordered by `Name`; since a Go
map's keys are distinct, the name-ordered permutation is unique, so any correct
sort is extensionally the one in the source. The HTTP fetch and JSON decode
that produce `resj` are fatal-on-error and outside this pure core. -/
def builders (resj : BuildersResponse) : List builderType :=
  (buildersFiltered resj).insertionSort byName

/-- Helper: an association list with `Nodup` keys maps a key to at most one value. -/
theorem nodupKeys_eq {α β : Type} {l : List (α × β)} (hnd : (l.map Prod.fst).Nodup)
    {k : α} {v w : β} (hv : (k, v) ∈ l) (hw : (k, w) ∈ l) : v = w := by
  induction l with
  | nil => cases hv
  | cons p rest ih =>
    obtain ⟨a, c⟩ := p
    simp only [List.map_cons, List.nodup_cons] at hnd
    rcases List.mem_cons.mp hv with hv1 | hv1
    · rcases List.mem_cons.mp hw with hw1 | hw1
      · have heq := hv1.trans hw1.symm
        simp only [Prod.mk.injEq] at heq
        exact heq.2
      · injection hv1 with h1 h2
        subst h1
        exact absurd (List.mem_map_of_mem Prod.fst hw1) hnd.1
    · rcases List.mem_cons.mp hw with hw1 | hw1
      · injection hw1 with h1 h2
        subst h1
        exact absurd (List.mem_map_of_mem Prod.fst hv1) hnd.1
      · exact ih hnd.2 hv1 hw1

/-- Helper: every element of the filtered list comes from a Builders entry whose
host lookup succeeded and passed the reverse/image test. -/
theorem mem_buildersFiltered {resj : BuildersResponse} {b : builderType}
    (hb : b ∈ buildersFiltered resj) :
    goHasPrefix b.Name "misc-compile" = false ∧
      ∃ bi hi, (b.Name, bi) ∈ resj.Builders ∧
        lookupHost resj.Hosts bi.HostType = some hi ∧
        (hi.IsReverse = true ∨ hi.ContainerImage ≠ "" ∨ hi.VMImage ≠ "") ∧
        b.IsReverse = hi.IsReverse ∧ b.ExpectNum = hi.ExpectNum := by
  rcases List.mem_filterMap.mp hb with ⟨p, hp, hmk⟩
  by_cases hpre : goHasPrefix p.1 "misc-compile"
  · rw [if_pos hpre] at hmk; cases hmk
  · rw [if_neg hpre] at hmk
    split at hmk
    · cases hmk
    · next hi hlk =>
      split at hmk
      · cases hmk
      · next hrej =>
        injection hmk with hmk
        subst hmk
        refine ⟨by simpa using hpre, p.2, hi, ⟨hp, hlk, ?_, rfl, rfl⟩⟩
        simp only [Bool.and_eq_true, Bool.not_eq_true', beq_iff_eq, not_and] at hrej
        by_cases h1 : hi.IsReverse = true
        · exact Or.inl h1
        · have h1' : hi.IsReverse = false := by
            cases hx : hi.IsReverse
            · rfl
            · exact absurd hx h1
          by_cases h2 : hi.ContainerImage = ""
          · exact Or.inr (Or.inr (hrej ⟨h1', h2⟩))
          · exact Or.inr (Or.inl h2)

/-- Concrete decoded response used to instantiate the catalog theorems:
one builder on a container host, one on a reverse host, one "misc-compile"
builder and one whose host is filtered out for lacking reverse/images. -/
def resjEx : BuildersResponse :=
  { Builders := [("windows-amd64", ⟨"host-win"⟩), ("linux-amd64", ⟨"host-linux"⟩),
                 ("misc-compile-plan9", ⟨"host-linux"⟩), ("plain", ⟨"host-bare"⟩)],
    Hosts := [("host-linux", ⟨false, 0, "img", ""⟩), ("host-win", ⟨true, 2, "", ""⟩),
              ("host-bare", ⟨false, 0, "", ""⟩)] }

/-- Concrete decoded response with a builder ("linux-arm") whose host-type key
("host-gone") has no entry in Hosts. -/
def resjMissEx : BuildersResponse :=
  { Builders := [("linux-arm", ⟨"host-gone"⟩), ("linux-amd64", ⟨"host-linux"⟩)],
    Hosts := [("host-linux", ⟨false, 0, "img", ""⟩)] }

/-- C9: the builder-catalog fetch result contains no builder whose name has the
"misc-compile" prefix; every returned builder comes from an entry whose host
descriptor is reverse or carries a container or VM image (so all entries
failing that test are excluded); and the returned list is sorted in ascending
lexicographic order of builder name. -/
theorem builders_excludes_and_sorted (resj : BuildersResponse) :
    (∀ b ∈ builders resj, goHasPrefix b.Name "misc-compile" = false) ∧
    (∀ b ∈ builders resj, ∃ bi hi, (b.Name, bi) ∈ resj.Builders ∧
        lookupHost resj.Hosts bi.HostType = some hi ∧
        (hi.IsReverse = true ∨ hi.ContainerImage ≠ "" ∨ hi.VMImage ≠ "")) ∧
    List.Sorted byName (builders resj) := by
  refine ⟨?_, ?_, ?_⟩
  · intro b hb
    exact (mem_buildersFiltered ((List.perm_insertionSort byName _).subset hb)).1
  · intro b hb
    rcases (mem_buildersFiltered ((List.perm_insertionSort byName _).subset hb)).2
      with ⟨bi, hi, hm1, hm2, hm3, _⟩
    exact ⟨bi, hi, hm1, hm2, hm3⟩
  · exact List.sorted_insertionSort byName _

/-- Witness for C9 at `resjEx`: instantiates the membership hypotheses at the
concrete builder "linux-amd64" and evaluates the sortedness conjunct. -/
theorem builders_excludes_and_sorted_witness :
    goHasPrefix (builderType.mk "linux-amd64" false 0).Name "misc-compile" = false ∧
    (∃ bi hi, ((builderType.mk "linux-amd64" false 0).Name, bi) ∈ resjEx.Builders ∧
        lookupHost resjEx.Hosts bi.HostType = some hi ∧
        (hi.IsReverse = true ∨ hi.ContainerImage ≠ "" ∨ hi.VMImage ≠ "")) ∧
    List.Sorted byName (builders resjEx) :=
  ⟨(builders_excludes_and_sorted resjEx).1 (builderType.mk "linux-amd64" false 0) (by decide),
   (builders_excludes_and_sorted resjEx).2.1 (builderType.mk "linux-amd64" false 0) (by decide),
   (builders_excludes_and_sorted resjEx).2.2⟩

/-- C10: a builder whose host-type key has no entry in the Hosts map is
silently dropped from the catalog result (Go's comma-ok lookup `continue`s on a
missing key), so no returned builder carries its name. -/
theorem builders_drops_missing_host (resj : BuildersResponse)
    (hnd : (resj.Builders.map Prod.fst).Nodup)
    (nm : String) (bi : builderInfo)
    (hmem : (nm, bi) ∈ resj.Builders)
    (hmiss : lookupHost resj.Hosts bi.HostType = none) :
    ∀ b ∈ builders resj, b.Name ≠ nm := by
  intro b hb heq
  rcases (mem_buildersFiltered ((List.perm_insertionSort byName _).subset hb)).2
    with ⟨bi2, hi, h1, h2, _, _⟩
  rw [heq] at h1
  have hbi : bi2 = bi := nodupKeys_eq hnd h1 hmem
  rw [hbi, hmiss] at h2
  cases h2

/-- Witness for C10 at `resjMissEx`: "linux-arm" has no compile-only prefix and
its host would pass no filter because the host entry is missing entirely; the
theorem applied to the concrete surviving builder shows it is not "linux-arm". -/
theorem builders_drops_missing_host_witness :
    (builderType.mk "linux-amd64" false 0).Name ≠ "linux-arm" :=
  builders_drops_missing_host resjMissEx (by decide) "linux-arm" ⟨"host-gone"⟩
    (by decide) (by decide) (builderType.mk "linux-amd64" false 0) (by decide)

/-- Status enum of `protos.CreateInstanceResponse` as used by `create`: the code
distinguishes only COMPLETE from everything else. -/
inductive CreateStatus
  | UNKNOWN
  | PENDING
  | COMPLETE
deriving DecidableEq, Repr

/-- The instance payload of a COMPLETE update (`update.GetInstance().GetGomoteId()`). -/
structure GomoteInstance where
  GomoteId : String
deriving DecidableEq, Repr

/-- One streamed `CreateInstanceResponse` update. -/
structure CreateInstanceUpdate where
  Status : CreateStatus
  WaitersAhead : Nat
  Inst : GomoteInstance
deriving DecidableEq, Repr

/-- Modelled from the spec: an RPC error carried by the provisioning call or a
stream `Recv`, represented by its translated status string. The translator
`statusFromError` itself is outside src/ (the spec calls its output "the
translated status"), so the error is identified with that string. -/
structure RPCError where
  translated : String
deriving DecidableEq, Repr

/-- Modelled from the spec: `statusFromError` yields the translated status of
an RPC error. -/
def statusFromError (e : RPCError) : String := e.translated

/-- How a task's stream ends after its (finite) list of updates: `io.EOF` or a
`Recv` error. -/
inductive StreamTail
  | eof
  | recvError (e : RPCError)
deriving DecidableEq, Repr

/-- The observable behaviour of one task's provisioning interaction: the result
of the initial `client.CreateInstance` call (`none` = a stream was obtained),
then the updates the stream delivers, then how it ends. -/
structure TaskStream where
  createErr : Option RPCError
  updates : List CreateInstanceUpdate
  tail : StreamTail
deriving DecidableEq, Repr

/-- A persisted group: a named ordered collection of instance IDs. -/
structure GomoteGroup where
  Name : String
  Instances : List String
deriving DecidableEq, Repr

/-- Stderr lines emitted by a task, as structured events (the source formats
them with `fmt.Fprintf`; elapsed wall-clock time is omitted from the model). -/
inductive StderrEvent
  | stillCreating (builderTypeName : String) (idx : Nat) (ahead : Nat)
  | pushingGOROOT (goroot inst : String)
  | runningCmd (cmd inst : String)
deriving DecidableEq, Repr

/-- State threaded through the `updateLoop` of `create` (lines 204-218):
the locally recorded instance ID `inst` (zero value `""`), the number of
`stream.Recv()` calls made so far, and the stderr lines emitted so far. -/
structure LoopState where
  inst : String
  recvCalls : Nat
  events : List StderrEvent
deriving DecidableEq, Repr

/-- One iteration of `updateLoop` on a successfully received update, mirroring
the source's switch: a non-COMPLETE status with status reporting on prints a
progress line; a COMPLETE status records the gomote ID; otherwise nothing. -/
def processUpdate (statusReporting : Bool) (builderTypeName : String) (i : Nat)
    (st : LoopState) (u : CreateInstanceUpdate) : LoopState :=
  if u.Status != CreateStatus.COMPLETE && statusReporting then
    { st with recvCalls := st.recvCalls + 1,
              events := st.events ++ [.stillCreating builderTypeName (i + 1) u.WaitersAhead] }
  else if u.Status == CreateStatus.COMPLETE then
    { st with recvCalls := st.recvCalls + 1, inst := u.Inst.GomoteId }
  else
    { st with recvCalls := st.recvCalls + 1 }

/-- The `updateLoop` of `create`: consume every delivered update in order, then
observe the stream's end. `io.EOF` breaks out of the loop with the state as it
stands; a `Recv` error returns the error message built at line 212, tagged with
the 1-based task index and the translated status. -/
def updateLoop (statusReporting : Bool) (builderTypeName : String) (i : Nat)
    (s : TaskStream) : LoopState × Option String :=
  let st := s.updates.foldl (processUpdate statusReporting builderTypeName i)
    { inst := "", recvCalls := 0, events := [] }
  match s.tail with
  | .eof => ({ st with recvCalls := st.recvCalls + 1 }, none)
  | .recvError e =>
      ({ st with recvCalls := st.recvCalls + 1 },
       some ("failed to create buildlet (" ++ toString (i + 1) ++ "): " ++ statusFromError e))

/-- Go `strings.Contains` helper: does some suffix of the haystack start with
the needle. -/
def containsFrom (needle : List Char) : List Char → Bool
  | [] => needle.isEmpty
  | c :: rest => needle.isPrefixOf (c :: rest) || containsFrom needle rest

/-- Go `strings.Contains(s, substr)`, on character lists. -/
def goStringsContains (s substr : String) : Bool := containsFrom substr.toList s.toList

/-- Everything externally observable about one task of `create` (the closure
passed to `eg.Go`, lines 198-247). -/
structure TaskOutcome where
  /-- The error the closure returns to the errgroup (`none` = nil). -/
  ret : Option String
  /-- When the update loop exited via EOF: the recorded instance ID, which the
  task prints to stdout with `fmt.Println` and, when a group is supplied,
  appends to `group.Instances` under the mutex. `none` when the task aborted
  during creation. -/
  created : Option String
  /-- Number of `stream.Recv()` calls made (0 when `CreateInstance` failed). -/
  recvCalls : Nat
  /-- Stderr lines emitted, in order. -/
  events : List StderrEvent
  /-- Whether `getGOROOT` was invoked. -/
  gorootCalled : Bool
  /-- Whether `doPush` was invoked. -/
  pushCalled : Bool
  /-- Whether `doRun` was invoked. -/
  runCalled : Bool
  /-- When `doRun` was invoked: the command and argument list passed to it. -/
  runCmd : Option (String × List String)
deriving DecidableEq, Repr

/-- One task of `create` (the body of `eg.Go`), translated from lines 198-247.
External collaborator results are the parameters: the task's stream behaviour
`s`, the `getGOROOT` result, and the `doPush`/`doRun` results (`none` = nil
error). The group append itself is aggregated in `createRun`; here `created`
records the value the task prints and appends. -/
def runTask (statusReporting setup : Bool) (count : Nat) (builderTypeName : String)
    (gorootRes : Except String String) (pushRes runRes : Option String)
    (i : Nat) (s : TaskStream) : TaskOutcome :=
  match s.createErr with
  | some e =>
      { ret := some ("failed to create buildlet: " ++ statusFromError e),
        created := none, recvCalls := 0, events := [],
        gorootCalled := false, pushCalled := false, runCalled := false, runCmd := none }
  | none =>
    let r := updateLoop statusReporting builderTypeName i s
    match r.2 with
    | some m =>
        { ret := some m, created := none, recvCalls := r.1.recvCalls, events := r.1.events,
          gorootCalled := false, pushCalled := false, runCalled := false, runCmd := none }
    | none =>
      if !setup then
        { ret := none, created := some r.1.inst, recvCalls := r.1.recvCalls,
          events := r.1.events,
          gorootCalled := false, pushCalled := false, runCalled := false, runCmd := none }
      else
        let detailedProgress := count == 1
        match gorootRes with
        | .error e =>
            { ret := some e, created := some r.1.inst, recvCalls := r.1.recvCalls,
              events := r.1.events,
              gorootCalled := true, pushCalled := false, runCalled := false, runCmd := none }
        | .ok goroot =>
          let ev1 := if !detailedProgress then
              r.1.events ++ [.pushingGOROOT goroot r.1.inst] else r.1.events
          match pushRes with
          | some e =>
              { ret := some e, created := some r.1.inst, recvCalls := r.1.recvCalls,
                events := ev1,
                gorootCalled := true, pushCalled := true, runCalled := false, runCmd := none }
          | none =>
            let cmd := if goStringsContains builderTypeName "windows" then "go/src/make.bat"
              else "go/src/make.bash"
            let ev2 := if !detailedProgress then ev1 ++ [.runningCmd cmd r.1.inst] else ev1
            { ret := runRes, created := some r.1.inst, recvCalls := r.1.recvCalls,
              events := ev2,
              gorootCalled := true, pushCalled := true, runCalled := true,
              runCmd := some (cmd, []) }

/-- One invocation of `create` from the point where the errgroup is launched
(line 194): the parsed flags, the resolved group (`activeGroup` or the one
`doCreateGroup` returned; `none` when no group), the external collaborators'
behaviours, and the scheduler's interleaving. `appendOrder` is the order in
which tasks reach the mutex-guarded group append; `finishOrder` is the order in
which the closures return to the errgroup (both are permutations of
`0, ..., count-1` for a real run, which theorems hypothesise as needed). -/
structure CreateInput where
  builderTypeName : String
  statusReporting : Bool
  count : Nat
  setup : Bool
  group : Option GomoteGroup
  streams : Nat → TaskStream
  gorootRes : Except String String
  pushRes : Nat → Option String
  runRes : Nat → Option String
  /-- Result of `storeGroup(group)` if it gets called (`none` = nil). -/
  storeRes : Option String
  appendOrder : List Nat
  finishOrder : List Nat

/-- The outcome of task `i` of an invocation. -/
def taskOutcome (inp : CreateInput) (i : Nat) : TaskOutcome :=
  runTask inp.statusReporting inp.setup inp.count inp.builderTypeName inp.gorootRes
    (inp.pushRes i) (inp.runRes i) i (inp.streams i)

/-- The error `eg.Wait()` returns: the first non-nil error in the order the
closures return; `none` when every task returned nil. -/
def egWaitErr (inp : CreateInput) : Option String :=
  (inp.finishOrder.filterMap (fun i => (taskOutcome inp i).ret)).head?

/-- The instance IDs appended to the group, in the order tasks reach the
append (only tasks whose creation succeeded get there). -/
def appendedInstances (inp : CreateInput) : List String :=
  inp.appendOrder.filterMap (fun i => (taskOutcome inp i).created)

/-- The group object as it stands after all tasks finished: the supplied group
with every appended instance ID, in append order. -/
def finalGroup (inp : CreateInput) : Option GomoteGroup :=
  inp.group.map (fun g => { g with Instances := g.Instances ++ appendedInstances inp })

/-- The externally observable result of `create` (lines 249-255). -/
structure CreateResult where
  /-- The error `create` returns (`none` = nil). -/
  ret : Option String
  /-- The group object after the invocation (appends happen even on a failed
  run, since each task appends as it completes). -/
  finalGroup : Option GomoteGroup
  /-- Whether `storeGroup` was invoked. -/
  storeCalled : Bool
deriving DecidableEq, Repr

/-- Lines 249-255 of `create`: wait for the errgroup; on a non-nil error return
it at once (no `storeGroup` call); otherwise, if a group is present, store it
and return `storeGroup`'s error; otherwise return nil. -/
def createRun (inp : CreateInput) : CreateResult :=
  match egWaitErr inp with
  | some e => { ret := some e, finalGroup := finalGroup inp, storeCalled := false }
  | none =>
    match finalGroup inp with
    | some _ => { ret := inp.storeRes, finalGroup := finalGroup inp, storeCalled := true }
    | none => { ret := none, finalGroup := none, storeCalled := false }

/-- The gomote IDs of the COMPLETE updates of a stream, in order. -/
def completedIds (l : List CreateInstanceUpdate) : List String :=
  l.filterMap (fun u =>
    if u.Status == CreateStatus.COMPLETE then some u.Inst.GomoteId else none)

theorem processUpdate_recvCalls (sr : Bool) (bt : String) (i : Nat)
    (st : LoopState) (u : CreateInstanceUpdate) :
    (processUpdate sr bt i st u).recvCalls = st.recvCalls + 1 := by
  unfold processUpdate
  split_ifs <;> rfl

theorem processUpdate_inst (sr : Bool) (bt : String) (i : Nat)
    (st : LoopState) (u : CreateInstanceUpdate) :
    (processUpdate sr bt i st u).inst =
      if u.Status = CreateStatus.COMPLETE then u.Inst.GomoteId else st.inst := by
  unfold processUpdate
  by_cases hc : u.Status = CreateStatus.COMPLETE
  · simp [hc]
  · simp only [if_neg hc]
    simp [hc]
    split_ifs <;> rfl

theorem foldl_recvCalls (sr : Bool) (bt : String) (i : Nat) :
    ∀ (l : List CreateInstanceUpdate) (st : LoopState),
      (List.foldl (processUpdate sr bt i) st l).recvCalls = st.recvCalls + l.length
  | [], _ => rfl
  | u :: l, st => by
    rw [List.foldl_cons, foldl_recvCalls sr bt i l _, processUpdate_recvCalls,
      List.length_cons]
    omega

theorem foldl_inst (sr : Bool) (bt : String) (i : Nat) :
    ∀ (l : List CreateInstanceUpdate) (st : LoopState),
      (List.foldl (processUpdate sr bt i) st l).inst = (completedIds l).getLastD st.inst
  | [], _ => rfl
  | u :: l, st => by
    rw [List.foldl_cons, foldl_inst sr bt i l _]
    by_cases hc : u.Status = CreateStatus.COMPLETE
    · rw [processUpdate_inst, if_pos hc]
      have h1 : completedIds (u :: l) = u.Inst.GomoteId :: completedIds l := by
        simp [completedIds, List.filterMap_cons, hc]
      rw [h1, List.getLastD_cons]
    · rw [processUpdate_inst, if_neg hc]
      have h1 : completedIds (u :: l) = completedIds l := by
        simp [completedIds, List.filterMap_cons, hc]
      rw [h1]

theorem updateLoop_fst_inst (sr : Bool) (bt : String) (i : Nat) (s : TaskStream) :
    (updateLoop sr bt i s).1.inst = (completedIds s.updates).getLastD "" := by
  unfold updateLoop
  cases s.tail <;> simp [foldl_inst]

theorem updateLoop_fst_recvCalls (sr : Bool) (bt : String) (i : Nat) (s : TaskStream) :
    (updateLoop sr bt i s).1.recvCalls = s.updates.length + 1 := by
  unfold updateLoop
  cases s.tail <;> simp [foldl_recvCalls]

theorem updateLoop_snd_eof (sr : Bool) (bt : String) (i : Nat) (s : TaskStream)
    (ht : s.tail = StreamTail.eof) : (updateLoop sr bt i s).2 = none := by
  unfold updateLoop
  rw [ht]

theorem updateLoop_snd_recvError (sr : Bool) (bt : String) (i : Nat) (s : TaskStream)
    (e : RPCError) (ht : s.tail = StreamTail.recvError e) :
    (updateLoop sr bt i s).2 =
      some ("failed to create buildlet (" ++ toString (i + 1) ++ "): " ++ statusFromError e) := by
  unfold updateLoop
  rw [ht]

theorem runTask_createErr (sr setup : Bool) (count : Nat) (bt : String)
    (gr : Except String String) (pr rr : Option String) (i : Nat) (s : TaskStream)
    (e : RPCError) (hc : s.createErr = some e) :
    runTask sr setup count bt gr pr rr i s =
      { ret := some ("failed to create buildlet: " ++ statusFromError e),
        created := none, recvCalls := 0, events := [],
        gorootCalled := false, pushCalled := false, runCalled := false, runCmd := none } := by
  unfold runTask
  rw [hc]

theorem runTask_recvError (sr setup : Bool) (count : Nat) (bt : String)
    (gr : Except String String) (pr rr : Option String) (i : Nat) (s : TaskStream)
    (e : RPCError) (hc : s.createErr = none) (ht : s.tail = StreamTail.recvError e) :
    runTask sr setup count bt gr pr rr i s =
      { ret := some ("failed to create buildlet (" ++ toString (i + 1) ++ "): " ++
          statusFromError e),
        created := none, recvCalls := s.updates.length + 1,
        events := (updateLoop sr bt i s).1.events,
        gorootCalled := false, pushCalled := false, runCalled := false, runCmd := none } := by
  unfold runTask
  rw [hc]
  simp only [updateLoop_snd_recvError sr bt i s e ht, updateLoop_fst_recvCalls]

theorem runTask_eof (sr setup : Bool) (count : Nat) (bt : String)
    (gr : Except String String) (pr rr : Option String) (i : Nat) (s : TaskStream)
    (hc : s.createErr = none) (ht : s.tail = StreamTail.eof) :
    (runTask sr setup count bt gr pr rr i s).created =
        some ((completedIds s.updates).getLastD "") ∧
    (runTask sr setup count bt gr pr rr i s).recvCalls = s.updates.length + 1 ∧
    (runTask sr setup count bt gr pr rr i s).ret =
      (if setup then
        (match gr with
         | Except.error e => some e
         | Except.ok _ => (match pr with | some e => some e | none => rr))
       else none) ∧
    (runTask sr setup count bt gr pr rr i s).gorootCalled = setup ∧
    (runTask sr setup count bt gr pr rr i s).pushCalled =
      (if setup then (match gr with | Except.ok _ => true | Except.error _ => false)
       else false) ∧
    (runTask sr setup count bt gr pr rr i s).runCalled =
      (if setup then
        (match gr with
         | Except.ok _ => (match pr with | none => true | some _ => false)
         | Except.error _ => false)
       else false) ∧
    (runTask sr setup count bt gr pr rr i s).runCmd =
      (if setup then
        (match gr with
         | Except.ok _ =>
            (match pr with
             | none => some ((if goStringsContains bt "windows" then "go/src/make.bat"
                 else "go/src/make.bash"), ([] : List String))
             | some _ => none)
         | Except.error _ => none)
       else none) := by
  unfold runTask
  rw [hc]
  simp only [updateLoop_snd_eof sr bt i s ht, updateLoop_fst_inst, updateLoop_fst_recvCalls]
  cases setup <;> rcases gr with e | g <;> cases pr <;> simp

theorem runTask_created_of_ret_none (sr setup : Bool) (count : Nat) (bt : String)
    (gr : Except String String) (pr rr : Option String) (i : Nat) (s : TaskStream)
    (h : (runTask sr setup count bt gr pr rr i s).ret = none) :
    (runTask sr setup count bt gr pr rr i s).created =
      some ((completedIds s.updates).getLastD "") := by
  cases hc : s.createErr with
  | some e =>
    rw [runTask_createErr sr setup count bt gr pr rr i s e hc] at h
    cases h
  | none =>
    cases ht : s.tail with
    | recvError e =>
      rw [runTask_recvError sr setup count bt gr pr rr i s e hc ht] at h
      cases h
    | eof => exact (runTask_eof sr setup count bt gr pr rr i s hc ht).1

theorem egWaitErr_eq_none_iff (inp : CreateInput) :
    egWaitErr inp = none ↔ ∀ i ∈ inp.finishOrder, (taskOutcome inp i).ret = none := by
  unfold egWaitErr
  rw [List.head?_eq_none_iff, List.filterMap_eq_nil_iff]

theorem egWaitErr_first (inp : CreateInput) (pre post : List Nat) (i : Nat) (e : String)
    (hord : inp.finishOrder = pre ++ i :: post)
    (hpre : ∀ j ∈ pre, (taskOutcome inp j).ret = none)
    (hi : (taskOutcome inp i).ret = some e) :
    egWaitErr inp = some e := by
  unfold egWaitErr
  rw [hord, List.filterMap_append, List.filterMap_eq_nil_iff.mpr hpre, List.nil_append]
  simp [List.filterMap_cons, hi]

theorem createRun_finalGroup (inp : CreateInput) :
    (createRun inp).finalGroup = finalGroup inp := by
  unfold createRun
  cases h : egWaitErr inp <;> simp [h]
  cases h2 : finalGroup inp <;> simp [h2]

theorem createRun_ret_some (inp : CreateInput) (e : String) (h : egWaitErr inp = some e) :
    createRun inp = { ret := some e, finalGroup := finalGroup inp, storeCalled := false } := by
  unfold createRun
  rw [h]

theorem createRun_none_group (inp : CreateInput) (g : GomoteGroup)
    (h : egWaitErr inp = none) (hg : inp.group = some g) :
    createRun inp =
      { ret := inp.storeRes, finalGroup := finalGroup inp, storeCalled := true } := by
  unfold createRun
  rw [h]
  have h2 : finalGroup inp =
      some { g with Instances := g.Instances ++ appendedInstances inp } := by
    unfold finalGroup
    rw [hg]
    rfl
  rw [h2]

theorem createRun_none_nogroup (inp : CreateInput)
    (h : egWaitErr inp = none) (hg : inp.group = none) :
    createRun inp = { ret := none, finalGroup := none, storeCalled := false } := by
  unfold createRun
  rw [h]
  have h2 : finalGroup inp = none := by
    unfold finalGroup
    rw [hg]
    rfl
  rw [h2]

/-- A stream that delivers one COMPLETE update carrying gomote ID `id`, then EOF. -/
def sOk (id : String) : TaskStream :=
  { createErr := none, updates := [⟨CreateStatus.COMPLETE, 0, ⟨id⟩⟩], tail := .eof }

/-- A stream obtained successfully whose first `Recv` fails with translated
status `m`. -/
def sRecvErr (m : String) : TaskStream :=
  { createErr := none, updates := [], tail := .recvError ⟨m⟩ }

/-- Spec §8's two-task scenario: task 1 completes with "id0", task 2's stream
yields an RPC error; a fresh group "g" is supplied. -/
def exC1 : CreateInput :=
  { builderTypeName := "linux-amd64", statusReporting := false, count := 2, setup := false,
    group := some ⟨"g", []⟩,
    streams := fun i => if i = 0 then sOk "id0" else sRecvErr "boom",
    gorootRes := Except.ok "/goroot", pushRes := fun _ => none, runRes := fun _ => none,
    storeRes := none, appendOrder := [0, 1], finishOrder := [0, 1] }

/-- An all-success two-task invocation with a fresh group, tasks completing in
the order 1, 0. -/
def exOk : CreateInput :=
  { builderTypeName := "linux-amd64", statusReporting := false, count := 2, setup := false,
    group := some ⟨"g", []⟩,
    streams := fun i => if i = 0 then sOk "id0" else sOk "id1",
    gorootRes := Except.ok "/goroot", pushRes := fun _ => none, runRes := fun _ => none,
    storeRes := none, appendOrder := [1, 0], finishOrder := [1, 0] }

/-- A single all-success task with a group whose `storeGroup` call fails. -/
def exC2 : CreateInput :=
  { builderTypeName := "linux-amd64", statusReporting := false, count := 1, setup := false,
    group := some ⟨"g", []⟩,
    streams := fun _ => sOk "id0",
    gorootRes := Except.ok "/goroot", pushRes := fun _ => none, runRes := fun _ => none,
    storeRes := some "store failed", appendOrder := [0], finishOrder := [0] }

/-- C1 counterexample: in the spec's own scenario (count=2, non-nil group,
task 1 succeeds with "id0", task 2's stream Recv fails), `create` returns the
task-2 error and `storeGroup` is NOT invoked: line 249 returns `eg.Wait()`'s
error before the `group != nil` store at line 252, so the group holding the
successful instance is left unstored. -/
theorem store_skipped_on_error_cex :
    exC1.group ≠ none ∧
    createRun exC1 =
      { ret := some "failed to create buildlet (2): boom",
        finalGroup := some ⟨"g", ["id0"]⟩, storeCalled := false } := by
  constructor
  · decide
  · decide

/-- C1 amended: `storeGroup` is invoked exactly when the group is non-nil AND
every task returned nil; when any task errors, `create` returns that error
without attempting persistence. -/
theorem store_called_iff (inp : CreateInput)
    (hfin : inp.finishOrder.Perm (List.range inp.count)) :
    (createRun inp).storeCalled = true ↔
      (inp.group ≠ none ∧ ∀ i < inp.count, (taskOutcome inp i).ret = none) := by
  have hmem : ∀ j, j ∈ inp.finishOrder ↔ j < inp.count := by
    intro j
    rw [hfin.mem_iff, List.mem_range]
  cases h : egWaitErr inp with
  | some e =>
    rw [createRun_ret_some inp e h]
    simp only [Bool.false_eq_true, false_iff, not_and]
    intro _ hall
    have : egWaitErr inp = none := by
      rw [egWaitErr_eq_none_iff]
      intro j hj
      exact hall j ((hmem j).mp hj)
    rw [h] at this
    cases this
  | none =>
    have hall : ∀ i < inp.count, (taskOutcome inp i).ret = none := by
      intro j hj
      exact (egWaitErr_eq_none_iff inp).mp h j ((hmem j).mpr hj)
    cases hg : inp.group with
    | some g =>
      rw [createRun_none_group inp g h hg]
      constructor
      · intro _
        refine ⟨?_, hall⟩
        simp
      · intro _
        rfl
    | none =>
      rw [createRun_none_nogroup inp h hg]
      simp [hg]

/-- Witness for the amended C1 at the all-success input `exOk`: the finish
order is a permutation of the task indices, and the store-called equivalence
holds there. -/
theorem store_called_iff_witness :
    exOk.finishOrder.Perm (List.range exOk.count) ∧
      ((createRun exOk).storeCalled = true ↔
        (exOk.group ≠ none ∧ ∀ i < exOk.count, (taskOutcome exOk i).ret = none)) :=
  ⟨by decide, store_called_iff exOk (by decide)⟩

/-- C2 counterexample: every task of `exC2` completes its pipeline without
error, yet `create` returns a non-nil error, because the final
`storeGroup(group)` call fails and its error is returned (line 253). -/
theorem ret_nonnil_despite_tasks_ok_cex :
    (∀ i < exC2.count, (taskOutcome exC2 i).ret = none) ∧
    (createRun exC2).ret = some "store failed" := by
  constructor
  · decide
  · decide

/-- C2 amended: `create` (modelled from the errgroup launch onward) returns
nil iff every task returns nil and, when a group is supplied, the final
`storeGroup` call succeeds too; and when tasks fail, the error returned is the
first one in completion order — later errors are discarded. -/
theorem ret_none_iff_and_first_error_wins (inp : CreateInput)
    (hfin : inp.finishOrder.Perm (List.range inp.count)) :
    ((createRun inp).ret = none ↔
      ((∀ i < inp.count, (taskOutcome inp i).ret = none) ∧
        (inp.group = none ∨ inp.storeRes = none))) ∧
    (∀ pre i post e, inp.finishOrder = pre ++ i :: post →
      (∀ j ∈ pre, (taskOutcome inp j).ret = none) →
      (taskOutcome inp i).ret = some e →
      (createRun inp).ret = some e) := by
  have hmem : ∀ j, j ∈ inp.finishOrder ↔ j < inp.count := by
    intro j
    rw [hfin.mem_iff, List.mem_range]
  constructor
  · cases h : egWaitErr inp with
    | some e =>
      rw [createRun_ret_some inp e h]
      constructor
      · intro hcontra
        simp at hcontra
      · rintro ⟨hall, _⟩
        have h0 : egWaitErr inp = none := by
          rw [egWaitErr_eq_none_iff]
          intro j hj
          exact hall j ((hmem j).mp hj)
        rw [h] at h0
        cases h0
    | none =>
      have hall : ∀ i < inp.count, (taskOutcome inp i).ret = none := by
        intro j hj
        exact (egWaitErr_eq_none_iff inp).mp h j ((hmem j).mpr hj)
      cases hg : inp.group with
      | some g =>
        rw [createRun_none_group inp g h hg]
        constructor
        · intro hret
          exact ⟨hall, Or.inr hret⟩
        · rintro ⟨_, hor⟩
          rcases hor with hgnone | hsr
          · cases hgnone
          · exact hsr
      | none =>
        rw [createRun_none_nogroup inp h hg]
        constructor
        · intro _
          exact ⟨hall, Or.inl rfl⟩
        · intro _
          rfl
  · intro pre i post e hord hpre hi
    rw [createRun_ret_some inp e (egWaitErr_first inp pre post i e hord hpre hi)]

/-- Witness for the amended C2 at `exOk`: discharges the permutation
hypothesis concretely. -/
theorem ret_none_iff_and_first_error_wins_witness :
    exOk.finishOrder.Perm (List.range exOk.count) ∧
      (((createRun exOk).ret = none ↔
        ((∀ i < exOk.count, (taskOutcome exOk i).ret = none) ∧
          (exOk.group = none ∨ exOk.storeRes = none))) ∧
      (∀ pre i post e, exOk.finishOrder = pre ++ i :: post →
        (∀ j ∈ pre, (taskOutcome exOk j).ret = none) →
        (taskOutcome exOk i).ret = some e →
        (createRun exOk).ret = some e)) :=
  ⟨by decide, ret_none_iff_and_first_error_wins exOk (by decide)⟩

/-- A single task whose stream delivers two COMPLETE updates before EOF. -/
def exC3 : CreateInput :=
  { builderTypeName := "linux-amd64", statusReporting := false, count := 1, setup := false,
    group := none,
    streams := fun _ =>
      { createErr := none,
        updates := [⟨CreateStatus.COMPLETE, 0, ⟨"first-id"⟩⟩,
                    ⟨CreateStatus.COMPLETE, 0, ⟨"second-id"⟩⟩],
        tail := .eof },
    gorootRes := Except.ok "/goroot", pushRes := fun _ => none, runRes := fun _ => none,
    storeRes := none, appendOrder := [0], finishOrder := [0] }

/-- C3 counterexample: the update loop has no `break` on COMPLETE — after the
first COMPLETE update it keeps receiving: a later COMPLETE overwrites the
recorded ID ("second-id", not "first-id") and three `Recv` calls are made
(two updates plus the EOF read), not one. -/
theorem complete_does_not_exit_loop_cex :
    (taskOutcome exC3 0).created = some "second-id" ∧
    (taskOutcome exC3 0).created ≠ some "first-id" ∧
    (taskOutcome exC3 0).recvCalls = 3 := by
  refine ⟨by decide, by decide, by decide⟩

/-- C3 amended: on COMPLETE the loop records the instance ID and continues; it
exits only at EOF (or a Recv error), so every update plus the terminating read
is consumed, and the ID recorded on EOF is the LAST COMPLETE update's (empty
when there is none). -/
theorem update_loop_consumes_all (inp : CreateInput) (i : Nat)
    (hc : (inp.streams i).createErr = none) :
    (taskOutcome inp i).recvCalls = (inp.streams i).updates.length + 1 ∧
    ((inp.streams i).tail = StreamTail.eof →
      (taskOutcome inp i).created =
        some ((completedIds (inp.streams i).updates).getLastD "")) := by
  constructor
  · cases ht : (inp.streams i).tail with
    | eof =>
      exact (runTask_eof inp.statusReporting inp.setup inp.count inp.builderTypeName
        inp.gorootRes (inp.pushRes i) (inp.runRes i) i (inp.streams i) hc ht).2.1
    | recvError e =>
      unfold taskOutcome
      rw [runTask_recvError inp.statusReporting inp.setup inp.count inp.builderTypeName
        inp.gorootRes (inp.pushRes i) (inp.runRes i) i (inp.streams i) e hc ht]
  · intro ht
    exact (runTask_eof inp.statusReporting inp.setup inp.count inp.builderTypeName
      inp.gorootRes (inp.pushRes i) (inp.runRes i) i (inp.streams i) hc ht).1

/-- Witness for the amended C3 at `exC3`. -/
theorem update_loop_consumes_all_witness :
    (exC3.streams 0).createErr = none ∧
    ((taskOutcome exC3 0).recvCalls = (exC3.streams 0).updates.length + 1 ∧
      ((exC3.streams 0).tail = StreamTail.eof →
        (taskOutcome exC3 0).created =
          some ((completedIds (exC3.streams 0).updates).getLastD ""))) :=
  ⟨by decide, update_loop_consumes_all exC3 0 (by decide)⟩

/-- A single task whose stream delivers one PENDING update and then EOF,
never a COMPLETE, with a fresh group supplied. -/
def exC4 : CreateInput :=
  { builderTypeName := "linux-amd64", statusReporting := true, count := 1, setup := false,
    group := some ⟨"g", []⟩,
    streams := fun _ =>
      { createErr := none, updates := [⟨CreateStatus.PENDING, 3, ⟨""⟩⟩], tail := .eof },
    gorootRes := Except.ok "/goroot", pushRes := fun _ => none, runRes := fun _ => none,
    storeRes := none, appendOrder := [0], finishOrder := [0] }

/-- C4: a stream that reaches EOF without ever delivering a COMPLETE update is
a silent non-error completion of the creation phase: the task records (and
prints) the empty instance ID, with setup off it returns nil, and when a group
is supplied the empty ID is appended to the group's instance sequence. -/
theorem eof_without_complete_is_silent (inp : CreateInput) (i : Nat)
    (hc : (inp.streams i).createErr = none)
    (ht : (inp.streams i).tail = StreamTail.eof)
    (hnc : ∀ u ∈ (inp.streams i).updates, u.Status ≠ CreateStatus.COMPLETE) :
    (taskOutcome inp i).created = some "" ∧
    (inp.setup = false → (taskOutcome inp i).ret = none) ∧
    (∀ g, inp.group = some g → i ∈ inp.appendOrder →
      ∃ g2, (createRun inp).finalGroup = some g2 ∧ "" ∈ g2.Instances) := by
  have hids : completedIds (inp.streams i).updates = [] := by
    rw [completedIds, List.filterMap_eq_nil_iff]
    intro u hu
    simp only [beq_iff_eq]
    rw [if_neg (hnc u hu)]
  have hcr : (taskOutcome inp i).created = some "" := by
    have h0 := (runTask_eof inp.statusReporting inp.setup inp.count inp.builderTypeName
      inp.gorootRes (inp.pushRes i) (inp.runRes i) i (inp.streams i) hc ht).1
    unfold taskOutcome
    rw [h0, hids]
    rfl
  refine ⟨hcr, ?_, ?_⟩
  · intro hs
    have h0 := (runTask_eof inp.statusReporting inp.setup inp.count inp.builderTypeName
      inp.gorootRes (inp.pushRes i) (inp.runRes i) i (inp.streams i) hc ht).2.2.1
    unfold taskOutcome
    rw [h0, hs]
    rfl
  · intro g hg hi
    have hmem : "" ∈ appendedInstances inp :=
      List.mem_filterMap.mpr ⟨i, hi, hcr⟩
    refine ⟨{ g with Instances := g.Instances ++ appendedInstances inp }, ?_, ?_⟩
    · rw [createRun_finalGroup]
      unfold finalGroup
      rw [hg]
      rfl
    · exact List.mem_append.mpr (Or.inr hmem)

/-- Witness for C4 at `exC4`. -/
theorem eof_without_complete_is_silent_witness :
    ((exC4.streams 0).createErr = none ∧
      (exC4.streams 0).tail = StreamTail.eof ∧
      ∀ u ∈ (exC4.streams 0).updates, u.Status ≠ CreateStatus.COMPLETE) ∧
    ((taskOutcome exC4 0).created = some "" ∧
      (exC4.setup = false → (taskOutcome exC4 0).ret = none) ∧
      (∀ g, exC4.group = some g → 0 ∈ exC4.appendOrder →
        ∃ g2, (createRun exC4).finalGroup = some g2 ∧ "" ∈ g2.Instances)) :=
  ⟨⟨by decide, by decide, by decide⟩,
   eof_without_complete_is_silent exC4 0 (by decide) (by decide) (by decide)⟩

/-- Helper: a `filterMap` whose function is `some` everywhere on the list is a
`map`. -/
theorem filterMap_eq_map_of_forall_some {α β : Type} (f : α → Option β) (g : α → β) :
    ∀ l : List α, (∀ i ∈ l, f i = some (g i)) → l.filterMap f = l.map g
  | [], _ => rfl
  | a :: l, h => by
    rw [List.filterMap_cons, h a (List.mem_cons_self a l), List.map_cons,
      filterMap_eq_map_of_forall_some f g l (fun i hi => h i (List.mem_cons_of_mem a hi))]

/-- C5: with a freshly created group and every one of the `count` tasks
returning nil, the final group contains exactly `count` instance IDs — one
appended per task, each task's (service-assigned, pairwise-distinct) ID
present exactly once with no duplicates — for EVERY order in which the tasks
reach the append. -/
theorem group_gets_count_ids (inp : CreateInput) (g : GomoteGroup)
    (hg : inp.group = some g) (hg0 : g.Instances = [])
    (hord : inp.appendOrder.Perm (List.range inp.count))
    (hok : ∀ i, i < inp.count → (taskOutcome inp i).ret = none)
    (hinj : ∀ i, i < inp.count → ∀ j, j < inp.count →
      (taskOutcome inp i).created = (taskOutcome inp j).created → i = j) :
    ∃ g2, (createRun inp).finalGroup = some g2 ∧
      g2.Instances.length = inp.count ∧
      g2.Instances.Nodup ∧
      (∀ i, i < inp.count → ∀ v, (taskOutcome inp i).created = some v →
        g2.Instances.count v = 1) := by
  have hb : ∀ i ∈ inp.appendOrder, i < inp.count := by
    intro i hi
    exact List.mem_range.mp (hord.mem_iff.mp hi)
  have hcr : ∀ i, i < inp.count →
      (taskOutcome inp i).created = some ((taskOutcome inp i).created.getD "") := by
    intro i hi
    have h0 := runTask_created_of_ret_none inp.statusReporting inp.setup inp.count
      inp.builderTypeName inp.gorootRes (inp.pushRes i) (inp.runRes i) i (inp.streams i)
      (hok i hi)
    unfold taskOutcome
    rw [h0]
    rfl
  have hmap : appendedInstances inp =
      inp.appendOrder.map (fun i => (taskOutcome inp i).created.getD "") := by
    unfold appendedInstances
    exact filterMap_eq_map_of_forall_some _ _ inp.appendOrder
      (fun i hi => hcr i (hb i hi))
  have hnodup : (appendedInstances inp).Nodup := by
    rw [hmap]
    refine List.Nodup.map_on ?_ (hord.nodup_iff.mpr (List.nodup_range inp.count))
    intro x hx y hy hfe
    refine hinj x (hb x hx) y (hb y hy) ?_
    rw [hcr x (hb x hx), hcr y (hb y hy)]
    exact congrArg some hfe
  have hlen : (appendedInstances inp).length = inp.count := by
    rw [hmap, List.length_map, hord.length_eq, List.length_range]
  refine ⟨{ g with Instances := g.Instances ++ appendedInstances inp }, ?_, ?_, ?_, ?_⟩
  · rw [createRun_finalGroup]
    unfold finalGroup
    rw [hg]
    rfl
  · simp only [hg0, List.nil_append]
    exact hlen
  · simp only [hg0, List.nil_append]
    exact hnodup
  · intro i hi v hv
    simp only [hg0, List.nil_append]
    have hveq : (taskOutcome inp i).created.getD "" = v := by
      have h2 := (hcr i hi).symm.trans hv
      injection h2
    have hm : v ∈ appendedInstances inp := by
      rw [hmap, ← hveq]
      exact List.mem_map_of_mem _ (hord.mem_iff.mpr (List.mem_range.mpr hi))
    exact List.count_eq_one_of_mem hnodup hm

/-- Witness for C5 at `exOk` (two tasks, IDs "id0" and "id1", append order
1 then 0). -/
theorem group_gets_count_ids_witness :
    exOk.appendOrder.Perm (List.range exOk.count) ∧
    (∃ g2, (createRun exOk).finalGroup = some g2 ∧
      g2.Instances.length = exOk.count ∧
      g2.Instances.Nodup ∧
      (∀ i, i < exOk.count → ∀ v, (taskOutcome exOk i).created = some v →
        g2.Instances.count v = 1)) :=
  ⟨by decide,
   group_gets_count_ids exOk ⟨"g", []⟩ (by decide) (by decide) (by decide)
     (by decide) (by decide)⟩

/-- A single task whose initial CreateInstance call fails with translated
status "Unavailable". -/
def exC6 : CreateInput :=
  { builderTypeName := "linux-amd64", statusReporting := false, count := 1, setup := false,
    group := none,
    streams := fun _ => { createErr := some ⟨"Unavailable"⟩, updates := [], tail := .eof },
    gorootRes := Except.ok "/goroot", pushRes := fun _ => none, runRes := fun _ => none,
    storeRes := none, appendOrder := [0], finishOrder := [0] }

/-- C6 counterexample: an RPC error from the initial CreateInstance call (line
202) is returned as "failed to create buildlet: <status>" — the task's 1-based
index appears nowhere in the message (the digit "1" does not occur at all) —
and becomes the orchestrator's returned error; only `Recv` errors (line 212)
carry the index. -/
theorem initial_call_error_untagged_cex :
    (createRun exC6).ret = some "failed to create buildlet: Unavailable" ∧
    goStringsContains "failed to create buildlet: Unavailable" "1" = false := by
  refine ⟨by decide, by decide⟩

/-- C6 amended: a stream `Recv` error is returned tagged with the 1-based task
index and the translated status ("failed to create buildlet (i+1): status");
an error from the initial CreateInstance call is tagged with the translated
status only, with no index ("failed to create buildlet: status"); either
becomes the orchestrator's returned error when it is the first failure in
completion order. -/
theorem task_error_messages (inp : CreateInput) (i : Nat) :
    (∀ e, (inp.streams i).createErr = some e →
      (taskOutcome inp i).ret = some ("failed to create buildlet: " ++ statusFromError e)) ∧
    (∀ e, (inp.streams i).createErr = none →
      (inp.streams i).tail = StreamTail.recvError e →
      (taskOutcome inp i).ret = some ("failed to create buildlet (" ++ toString (i + 1) ++
        "): " ++ statusFromError e)) ∧
    (∀ pre post e, inp.finishOrder = pre ++ i :: post →
      (∀ j ∈ pre, (taskOutcome inp j).ret = none) →
      (taskOutcome inp i).ret = some e →
      (createRun inp).ret = some e) := by
  refine ⟨?_, ?_, ?_⟩
  · intro e hce
    unfold taskOutcome
    rw [runTask_createErr inp.statusReporting inp.setup inp.count inp.builderTypeName
      inp.gorootRes (inp.pushRes i) (inp.runRes i) i (inp.streams i) e hce]
  · intro e hce ht
    unfold taskOutcome
    rw [runTask_recvError inp.statusReporting inp.setup inp.count inp.builderTypeName
      inp.gorootRes (inp.pushRes i) (inp.runRes i) i (inp.streams i) e hce ht]
  · intro pre post e hord hpre hi
    rw [createRun_ret_some inp e (egWaitErr_first inp pre post i e hord hpre hi)]

/-- Witness for the amended C6 at `exC1`: task index 1 (1-based: 2) has a Recv
error "boom"; its tagged message is the orchestrator's returned error, task 0
having returned nil. -/
theorem task_error_messages_witness :
    ((taskOutcome exC1 1).ret = some ("failed to create buildlet (" ++ toString (1 + 1) ++
      "): " ++ statusFromError ⟨"boom"⟩)) ∧
    (createRun exC1).ret = some "failed to create buildlet (2): boom" :=
  ⟨(task_error_messages exC1 1).2.1 ⟨"boom"⟩ (by decide) (by decide),
   (task_error_messages exC1 1).2.2 [0] [] "failed to create buildlet (2): boom"
     (by decide) (by decide) (by decide)⟩

/-- C7: the setup pipeline is gated on the setup flag: with setup=false no
task ever resolves GOROOT, pushes, or runs; with setup=true every task that
completes its creation phase resolves GOROOT, pushes when GOROOT resolves, and
runs when the push also succeeds. -/
theorem setup_gates_push_and_run (inp : CreateInput) :
    (inp.setup = false → ∀ i, (taskOutcome inp i).gorootCalled = false ∧
      (taskOutcome inp i).pushCalled = false ∧ (taskOutcome inp i).runCalled = false) ∧
    (inp.setup = true → ∀ i v, (taskOutcome inp i).created = some v →
      (taskOutcome inp i).gorootCalled = true ∧
      (∀ goroot, inp.gorootRes = Except.ok goroot →
        (taskOutcome inp i).pushCalled = true ∧
        (inp.pushRes i = none → (taskOutcome inp i).runCalled = true))) := by
  constructor
  · intro hs i
    cases hce : (inp.streams i).createErr with
    | some e =>
      unfold taskOutcome
      rw [runTask_createErr inp.statusReporting inp.setup inp.count inp.builderTypeName
        inp.gorootRes (inp.pushRes i) (inp.runRes i) i (inp.streams i) e hce]
      exact ⟨rfl, rfl, rfl⟩
    | none =>
      cases ht : (inp.streams i).tail with
      | recvError e =>
        unfold taskOutcome
        rw [runTask_recvError inp.statusReporting inp.setup inp.count inp.builderTypeName
          inp.gorootRes (inp.pushRes i) (inp.runRes i) i (inp.streams i) e hce ht]
        exact ⟨rfl, rfl, rfl⟩
      | eof =>
        obtain ⟨_, _, _, hgo, hpu, hru, _⟩ := runTask_eof inp.statusReporting inp.setup
          inp.count inp.builderTypeName inp.gorootRes (inp.pushRes i) (inp.runRes i) i
          (inp.streams i) hce ht
        unfold taskOutcome
        rw [hgo, hpu, hru, hs]
        simp
  · intro hs i v hcv
    cases hce : (inp.streams i).createErr with
    | some e =>
      unfold taskOutcome at hcv
      rw [runTask_createErr inp.statusReporting inp.setup inp.count inp.builderTypeName
        inp.gorootRes (inp.pushRes i) (inp.runRes i) i (inp.streams i) e hce] at hcv
      cases hcv
    | none =>
      cases ht : (inp.streams i).tail with
      | recvError e =>
        unfold taskOutcome at hcv
        rw [runTask_recvError inp.statusReporting inp.setup inp.count inp.builderTypeName
          inp.gorootRes (inp.pushRes i) (inp.runRes i) i (inp.streams i) e hce ht] at hcv
        cases hcv
      | eof =>
        obtain ⟨_, _, _, hgo, hpu, hru, _⟩ := runTask_eof inp.statusReporting inp.setup
          inp.count inp.builderTypeName inp.gorootRes (inp.pushRes i) (inp.runRes i) i
          (inp.streams i) hce ht
        unfold taskOutcome
        rw [hgo, hpu, hru, hs]
        refine ⟨by simp, ?_⟩
        intro goroot hgr
        rw [hgr]
        refine ⟨by simp, ?_⟩
        intro hpr
        rw [hpr]
        simp

/-- A single-task setup invocation against a Windows builder type. -/
def exC8 : CreateInput :=
  { builderTypeName := "windows-amd64", statusReporting := false, count := 1, setup := true,
    group := none,
    streams := fun _ => sOk "idw",
    gorootRes := Except.ok "/goroot", pushRes := fun _ => none, runRes := fun _ => none,
    storeRes := none, appendOrder := [0], finishOrder := [0] }

/-- Witness for C7 at `exC8` (setup on, creation succeeded): GOROOT is
resolved, push happens, and run happens since the push succeeded. -/
theorem setup_gates_push_and_run_witness :
    exC8.setup = true ∧ (taskOutcome exC8 0).created = some "idw" ∧
    (taskOutcome exC8 0).gorootCalled = true ∧
    ((taskOutcome exC8 0).pushCalled = true ∧
      (exC8.pushRes 0 = none → (taskOutcome exC8 0).runCalled = true)) :=
  ⟨rfl, by decide,
   ((setup_gates_push_and_run exC8).2 rfl 0 "idw" (by decide)).1,
   ((setup_gates_push_and_run exC8).2 rfl 0 "idw" (by decide)).2 "/goroot" rfl⟩

/-- C8: whenever the execute step is invoked, its argument list is empty and
the command is the Windows build script (go/src/make.bat) exactly when the
builder-type name contains the substring "windows", and the Unix build script
(go/src/make.bash) otherwise. -/
theorem make_script_selection (inp : CreateInput) (i : Nat) (c : String)
    (args : List String) (h : (taskOutcome inp i).runCmd = some (c, args)) :
    args = [] ∧
    c = (if goStringsContains inp.builderTypeName "windows" then "go/src/make.bat"
      else "go/src/make.bash") := by
  cases hce : (inp.streams i).createErr with
  | some e =>
    unfold taskOutcome at h
    rw [runTask_createErr inp.statusReporting inp.setup inp.count inp.builderTypeName
      inp.gorootRes (inp.pushRes i) (inp.runRes i) i (inp.streams i) e hce] at h
    cases h
  | none =>
    cases ht : (inp.streams i).tail with
    | recvError e =>
      unfold taskOutcome at h
      rw [runTask_recvError inp.statusReporting inp.setup inp.count inp.builderTypeName
        inp.gorootRes (inp.pushRes i) (inp.runRes i) i (inp.streams i) e hce ht] at h
      cases h
    | eof =>
      obtain ⟨_, _, _, _, _, _, hcmd⟩ := runTask_eof inp.statusReporting inp.setup
        inp.count inp.builderTypeName inp.gorootRes (inp.pushRes i) (inp.runRes i) i
        (inp.streams i) hce ht
      unfold taskOutcome at h
      rw [hcmd] at h
      by_cases hs : inp.setup = true
      · rw [if_pos hs] at h
        cases hgr : inp.gorootRes with
        | error e =>
          rw [hgr] at h
          cases h
        | ok goroot =>
          rw [hgr] at h
          cases hpr : inp.pushRes i with
          | some e =>
            rw [hpr] at h
            cases h
          | none =>
            rw [hpr] at h
            injection h with h2
            injection h2 with hcs hargs
            exact ⟨hargs.symm, hcs.symm⟩
      · rw [if_neg hs] at h
        cases h

/-- Witness for C8 at `exC8`: the execute step is requested with the
Windows-suffixed script and no arguments. -/
theorem make_script_selection_witness :
    (taskOutcome exC8 0).runCmd = some ("go/src/make.bat", []) ∧
    (([] : List String) = [] ∧
      "go/src/make.bat" = (if goStringsContains exC8.builderTypeName "windows"
        then "go/src/make.bat" else "go/src/make.bash")) :=
  ⟨by decide, make_script_selection exC8 0 "go/src/make.bat" [] (by decide)⟩
